import Mathlib

/-!
Shallow embedding of the paywall service (src/paywall.rs, src/db.rs,
src/ml.rs, src/models.rs) and proofs about its access-decision engine.

Timestamps (chrono DateTime of Utc) are modelled as rational numbers of
seconds; each call to `Utc::now()` in a handler is a separate clock
reading passed in as a parameter.  Database access is modelled by an
explicit `Db` state carrying the stored rows plus one fault flag per SQL
query, so that error-propagation behaviour can be stated.  `f64` values
are modelled as rationals.
-/

namespace Paywall

/-- Uuid values are 128-bit; `uuid::Uuid` displays as 36 lowercase
hex-and-hyphen characters. -/
abbrev Uuid := Fin (2 ^ 128)

/-- One lowercase hex digit, as the Display impl of the uuid crate prints it. -/
def hexDigit (n : Nat) : Char :=
  if n < 10 then Char.ofNat (48 + n) else Char.ofNat (87 + n)

/-- Big-endian fixed-width hex rendering of a natural number. -/
def toHex : Nat → Nat → List Char
  | 0, _ => []
  | w + 1, n => toHex w (n / 16) ++ [hexDigit (n % 16)]

/-- Hyphenated 8-4-4-4-12 rendering of a Uuid, as the Display impl of
the uuid crate prints it: the 32 big-endian hex digits of the 128-bit
value with hyphens after digits 8, 12, 16 and 20 (each group is the
fixed-width hex rendering of the corresponding bit-field slice; toHex w
only depends on its argument modulo 16 ^ w, so each group below is
exactly its slice of digits). -/
def uuidChars (u : Uuid) : List Char :=
  toHex 8 (u.val / 16 ^ 24) ++ '-' :: toHex 4 (u.val / 16 ^ 20)
    ++ '-' :: toHex 4 (u.val / 16 ^ 16) ++ '-' :: toHex 4 (u.val / 16 ^ 12)
    ++ '-' :: toHex 12 u.val

def uuidStr (u : Uuid) : String := ⟨uuidChars u⟩

/-- models.rs: Subscription row. -/
structure Subscription where
  id : Uuid
  user_id : Uuid
  plan_id : String
  started_at : ℚ
  expires_at : ℚ
  is_active : Bool
deriving DecidableEq

/-- models.rs: Content row. -/
structure Content where
  id : Uuid
  title : String
  body : String
  required_plan : String
  created_at : ℚ
deriving DecidableEq

/-- models.rs: UserBehavior row. -/
structure UserBehavior where
  user_id : Uuid
  content_id : Uuid
  view_time_seconds : Int
  scroll_depth_percent : ℚ
  interaction_score : ℚ
  timestamp : ℚ
deriving DecidableEq

/-- models.rs: MLFeatures, the six-feature vector plus its identifiers. -/
structure MLFeatures where
  user_id : Uuid
  content_id : Uuid
  user_subscription_days : ℚ
  user_avg_view_time : ℚ
  content_popularity_score : ℚ
  time_since_last_interaction : ℚ
  user_total_interactions : ℚ
  content_avg_interaction_score : ℚ
deriving DecidableEq

/-- models.rs: PurchaseRequest body. -/
structure PurchaseRequest where
  plan_id : String
  payment_token : String
deriving DecidableEq

/-- config.rs: Config. -/
structure Config where
  database_url : String
  jwt_secret : String
  payment_api_key : String
  payment_api_url : String
deriving DecidableEq

/-- A sqlx error (the embedding does not distinguish error kinds). -/
inductive DbError where
  | sqlx
deriving DecidableEq

/-- Database state: the stored rows, the current clock `NOW()`, and one
fault flag per SQL query issued by the code under analysis (a set flag
makes that query return a sqlx error, modelling a data-access fault). -/
structure Db where
  subscriptions : List Subscription
  contents : List Content
  behaviors : List UserBehavior
  now : ℚ
  subQueryFault : Bool
  contentQueryFault : Bool
  subDaysFault : Bool
  avgViewFault : Bool
  totalViewsFault : Bool
  contentViewsFault : Bool
  recencyFault : Bool
  totalInteractionsFault : Bool
  avgScoreFault : Bool
  logFault : Bool
  createSubFault : Bool
deriving DecidableEq

/-- db.rs get_active_subscription: SELECT one subscription row WHERE
user_id matches AND is_active = true AND expires_at > NOW(), with no
ORDER BY; fetch_optional returns the first row in stored order. -/
def get_active_subscription (db : Db) (user_id : Uuid) :
    Except DbError (Option Subscription) :=
  if db.subQueryFault then .error .sqlx
  else .ok (db.subscriptions.find? fun s =>
    s.user_id == user_id && s.is_active && decide (db.now < s.expires_at))

/-- db.rs get_content_by_id: SELECT the content row WHERE id matches. -/
def get_content_by_id (db : Db) (content_id : Uuid) :
    Except DbError (Option Content) :=
  if db.contentQueryFault then .error .sqlx
  else .ok (db.contents.find? fun c => c.id == content_id)

/-- db.rs log_user_behavior: INSERT a behavior row; on success the row
is appended to the table. -/
def log_user_behavior (db : Db) (behavior : UserBehavior) :
    Except DbError Db :=
  if db.logFault then .error .sqlx
  else .ok { db with behaviors := db.behaviors ++ [behavior] }

/-- db.rs create_subscription: INSERT a subscription row. -/
def create_subscription (db : Db) (subscription : Subscription) :
    Except DbError Db :=
  if db.createSubFault then .error .sqlx
  else .ok { db with subscriptions := db.subscriptions ++ [subscription] }

/-- Sum of a list of rationals. -/
def qsum (l : List ℚ) : ℚ := l.foldr (· + ·) 0

/-- Maximum of a nonempty list, 0 on empty (SQL MAX is NULL on empty and
every caller below treats NULL via unwrap_or(0.0) after the subtraction
pattern shown in each query). -/
def qmax (l : List ℚ) : ℚ := l.foldr max 0

/-- Minimum helper used for MIN(started_at) over a nonempty list. -/
def qmin : List ℚ → ℚ
  | [] => 0
  | x :: xs => xs.foldr min x

/-- db.rs get_user_subscription_days: EXTRACT(EPOCH FROM (MAX(expires_at)
- MIN(started_at))) / 86400 over the user rows with is_active = true;
NULL (no rows) becomes 0.0 via flatten + unwrap_or. -/
def get_user_subscription_days (db : Db) (user_id : Uuid) :
    Except DbError ℚ :=
  if db.subDaysFault then .error .sqlx
  else
    let rows := db.subscriptions.filter fun s => s.user_id == user_id && s.is_active
    .ok (match rows with
      | [] => 0
      | _ :: _ =>
        (qmax (rows.map (·.expires_at)) - qmin (rows.map (·.started_at))) / 86400)

/-- db.rs get_user_avg_view_time: AVG(view_time_seconds) over the user
behavior rows; NULL (no rows) becomes 0.0. -/
def get_user_avg_view_time (db : Db) (user_id : Uuid) :
    Except DbError ℚ :=
  if db.avgViewFault then .error .sqlx
  else
    let rows := db.behaviors.filter fun b => b.user_id == user_id
    .ok (match rows with
      | [] => 0
      | _ :: _ => qsum (rows.map fun b => (b.view_time_seconds : ℚ)) / rows.length)

/-- db.rs get_content_popularity_score: COUNT over all behaviors with
unwrap_or(1) on its Result, COUNT over the content behaviors with
unwrap_or(0) on its Result, then content / max(total, 1).  Note both
query Results are consumed by unwrap_or, so this function never
returns an error. -/
def get_content_popularity_score (db : Db) (content_id : Uuid) :
    Except DbError ℚ :=
  let total_views : Int := if db.totalViewsFault then 1 else db.behaviors.length
  let content_views : Int :=
    if db.contentViewsFault then 0
    else (db.behaviors.filter fun b => b.content_id == content_id).length
  .ok ((content_views : ℚ) / max (total_views : ℚ) 1)

/-- db.rs get_time_since_last_interaction: EXTRACT(EPOCH FROM (NOW() -
MAX(timestamp))) over the user behavior rows; NULL becomes 0.0. -/
def get_time_since_last_interaction (db : Db) (user_id : Uuid) :
    Except DbError ℚ :=
  if db.recencyFault then .error .sqlx
  else
    let rows := db.behaviors.filter fun b => b.user_id == user_id
    .ok (match rows with
      | [] => 0
      | _ :: _ => db.now - qmax (rows.map (·.timestamp)))

/-- db.rs get_user_total_interactions: COUNT of the user behavior rows. -/
def get_user_total_interactions (db : Db) (user_id : Uuid) :
    Except DbError Int :=
  if db.totalInteractionsFault then .error .sqlx
  else .ok ((db.behaviors.filter fun b => b.user_id == user_id).length : Int)

/-- db.rs get_content_avg_interaction_score: AVG(interaction_score) over
the content behavior rows; NULL becomes 0.0. -/
def get_content_avg_interaction_score (db : Db) (content_id : Uuid) :
    Except DbError ℚ :=
  if db.avgScoreFault then .error .sqlx
  else
    let rows := db.behaviors.filter fun b => b.content_id == content_id
    .ok (match rows with
      | [] => 0
      | _ :: _ => qsum (rows.map (·.interaction_score)) / rows.length)

/-- ml.rs extract_features: the six feature queries in order, each
propagated with the question-mark operator (modelled as an explicit
match with early return on Err), assembled into MLFeatures. -/
def extract_features (db : Db) (user_id content_id : Uuid) :
    Except DbError MLFeatures :=
  match get_user_subscription_days db user_id with
  | .error e => .error e
  | .ok user_subscription_days =>
  match get_user_avg_view_time db user_id with
  | .error e => .error e
  | .ok user_avg_view_time =>
  match get_content_popularity_score db content_id with
  | .error e => .error e
  | .ok content_popularity_score =>
  match get_time_since_last_interaction db user_id with
  | .error e => .error e
  | .ok time_since_last_interaction =>
  match get_user_total_interactions db user_id with
  | .error e => .error e
  | .ok user_total_interactions =>
  match get_content_avg_interaction_score db content_id with
  | .error e => .error e
  | .ok content_avg_interaction_score =>
  .ok {
    user_id := user_id
    content_id := content_id
    user_subscription_days := user_subscription_days
    user_avg_view_time := user_avg_view_time
    content_popularity_score := content_popularity_score
    time_since_last_interaction := time_since_last_interaction
    user_total_interactions := (user_total_interactions : ℚ)
    content_avg_interaction_score := content_avg_interaction_score
  }

/-- ml.rs PaywallModel: a trained decision tree, abstracted as its
prediction function on a feature row (the tree is fit on random
synthetic data at startup, so its behaviour is unconstrained). -/
structure PaywallModel where
  tree : List ℚ → Bool

/-- The six-entry array built inside PaywallModel::predict. -/
def featureArray (features : MLFeatures) : List ℚ :=
  [features.user_subscription_days, features.user_avg_view_time,
   features.content_popularity_score, features.time_since_last_interaction,
   features.user_total_interactions, features.content_avg_interaction_score]

/-- ml.rs PaywallModel::predict: build the six-feature array, return
false on a length mismatch, else ask the tree for the class label. -/
def PaywallModel.predict (model : PaywallModel) (features : MLFeatures) : Bool :=
  let feature_array := featureArray features
  if feature_array.length ≠ 6 then false
  else model.tree feature_array

/-- paywall.rs lines 63-71: the inline plan-authorization check of
get_content, deciding access from the required plan and the optional
active subscription. -/
def has_access (required_plan : String) (subscription : Option Subscription) : Bool :=
  match subscription with
  | some sub =>
    match required_plan with
    | "free" => true
    | "basic" => sub.plan_id == "basic" || sub.plan_id == "premium"
    | "premium" => sub.plan_id == "premium"
    | _ => false
  | none => required_plan == "free"

/-- The authorization table of the specification (section 4.1), stated
from the table itself: required free allows everything; required basic
allows active basic or premium; required premium allows only active
premium; an unrecognized required tier denies everything. -/
def authorizeSpec (requiredTier : String) (activeTier : Option String) : Bool :=
  match requiredTier with
  | "free" => true
  | "basic" => activeTier == some "basic" || activeTier == some "premium"
  | "premium" => activeTier == some "premium"
  | _ => false

/-- The verdict payloads get_content builds and caches (the three json!
objects of paywall.rs lines 87-114): content plus access_granted true;
content plus access_granted false plus the ml_suggestion advisory;
content plus access_granted false plus the upgrade message. -/
inductive Verdict where
  | allowed (content : Content)
  | fallbackEligible (content : Content)
  | upgradeRequired (content : Content)
deriving DecidableEq

/-- The access_granted field of the serialized verdict. -/
def Verdict.granted : Verdict → Bool
  | .allowed _ => true
  | .fallbackEligible _ => false
  | .upgradeRequired _ => false

/-- The content payload embedded in the serialized verdict. -/
def Verdict.content : Verdict → Content
  | .allowed c => c
  | .fallbackEligible c => c
  | .upgradeRequired c => c

/-- The full set of HTTP responses get_content can produce. -/
inductive Response where
  | unauthorized
  | notFound
  | internalError
  | ok (verdict : Verdict)
deriving DecidableEq

/-- The moka cache of serialized verdicts, keyed by the derived string. -/
def DecisionCache := List (String × Verdict)

instance : DecidableEq DecisionCache := by
  unfold DecisionCache; infer_instance

/-- Cache lookup: the entry stored under the key, if present. -/
def cacheGet (cache : DecisionCache) (key : String) : Option Verdict :=
  (cache.find? fun e => e.1 == key).map (·.2)

/-- Cache insert: stores the value under the key, replacing any
previous entry for that key. -/
def cacheInsert (cache : DecisionCache) (key : String) (v : Verdict) :
    DecisionCache :=
  (key, v) :: cache.filter fun e => e.1 != key

/-- paywall.rs line 34: the derived decision-cache key,
format content_{content_id}_user_{user_id}. -/
def cacheKey (content_id user_id : Uuid) : String :=
  "content_" ++ uuidStr content_id ++ "_user_" ++ uuidStr user_id

/-- Instrumentation: how many times each collaborator was invoked during
one get_content evaluation (the plan check, feature extraction, model
inference, behavior logging). -/
structure Trace where
  authorizeCalls : Nat
  extractCalls : Nat
  predictCalls : Nat
  logCalls : Nat
deriving DecidableEq

def Trace.none : Trace := ⟨0, 0, 0, 0⟩

/-- Result of one get_content evaluation: the HTTP response, the
database and cache states afterwards, and the collaborator trace. -/
structure GetContentOutcome where
  response : Response
  db : Db
  cache : DecisionCache
  trace : Trace
deriving DecidableEq

/-- paywall.rs lines 73-115: the response value built on a cache miss
once content and subscription have been fetched, together with the
database state afterwards (the allowed branch logs a zero-valued
behavior record, swallowing a logging failure) and the collaborator
trace. -/
def build_response (db : Db) (model : PaywallModel)
    (user_id content_id : Uuid) (content : Content)
    (subscription : Option Subscription) : Verdict × Db × Trace :=
  if has_access content.required_plan subscription then
    let behavior : UserBehavior :=
      { user_id := user_id, content_id := content_id,
        view_time_seconds := 0, scroll_depth_percent := 0,
        interaction_score := 0, timestamp := db.now }
    let db1 := match log_user_behavior db behavior with
      | .ok db1 => db1
      | .error _ => db
    (Verdict.allowed content, db1, ⟨1, 0, 0, 1⟩)
  else
    let features_result := extract_features db user_id content_id
    let ml_decision := match features_result with
      | .ok features => model.predict features
      | .error _ => false
    (if ml_decision then Verdict.fallbackEligible content
      else Verdict.upgradeRequired content,
     db, ⟨1, 1, if features_result.isOk then 1 else 0, 0⟩)

/-- paywall.rs get_content: authentication, cache check, content fetch,
subscription fetch, then the response computation of build_response,
the cache write, and the response. -/
def get_content (db : Db) (model : PaywallModel) (cache : DecisionCache)
    (auth_user : Option Uuid) (content_id : Uuid) : GetContentOutcome :=
  match auth_user with
  | none => ⟨.unauthorized, db, cache, Trace.none⟩
  | some user_id =>
    let cache_key := cacheKey content_id user_id
    match cacheGet cache cache_key with
    | some cached_response => ⟨.ok cached_response, db, cache, Trace.none⟩
    | none =>
      match get_content_by_id db content_id with
      | .ok none => ⟨.notFound, db, cache, Trace.none⟩
      | .error _ => ⟨.internalError, db, cache, Trace.none⟩
      | .ok (some content) =>
        match get_active_subscription db user_id with
        | .error _ => ⟨.internalError, db, cache, Trace.none⟩
        | .ok subscription =>
          let r := build_response db model user_id content_id content subscription
          ⟨.ok r.1, r.2.1, cacheInsert cache cache_key r.1, r.2.2⟩

/-- A payment-gateway error (never produced; kept for the signature). -/
inductive PaymentError where
  | gateway
deriving DecidableEq

/-- paywall.rs process_payment: the stub gateway, always Ok(true). -/
def process_payment (_config : Config) (_token : String) (_amount : ℚ)
    (_currency : String) : Except PaymentError Bool :=
  .ok true

/-- paywall.rs lines 151-155: the plan table mapping a plan id to its
price and duration in days; basic is 9.99 for 30 days, premium 19.99
for 30 days, and any other id is rejected (none means the 400 early
return of purchase_subscription). -/
def plan_table (plan_id : String) : Option (ℚ × Int) :=
  match plan_id with
  | "basic" => some (9.99, 30)
  | "premium" => some (19.99, 30)
  | _ => none

/-- The HTTP responses purchase_subscription can produce. -/
inductive PurchaseResponse where
  | unauthorized
  | invalidPlan
  | success (subscription : Subscription)
  | paymentFailed
  | paymentError
  | internalError
deriving DecidableEq

/-- Result of one purchase_subscription evaluation, instrumented with
whether the payment gateway and the subscription insert were reached. -/
structure PurchaseOutcome where
  response : PurchaseResponse
  db : Db
  paymentAttempted : Bool
  createAttempted : Bool
deriving DecidableEq

/-- paywall.rs purchase_subscription: authentication, the plan table
(basic 9.99 for 30 days, premium 19.99 for 30 days, anything else a 400
before payment), the payment call, then subscription creation.  The two
separate Utc::now() calls of the source (started_at, and the base of
expires_at) are the clock readings t1 and t2; new_id is the generated
Uuid. -/
def purchase_subscription (db : Db) (config : Config)
    (auth_user : Option Uuid) (purchase_req : PurchaseRequest)
    (new_id : Uuid) (t1 t2 : ℚ) : PurchaseOutcome :=
  match auth_user with
  | none => ⟨.unauthorized, db, false, false⟩
  | some user_id =>
    match plan_table purchase_req.plan_id with
    | none => ⟨.invalidPlan, db, false, false⟩
    | some (amount, duration_days) =>
      match process_payment config purchase_req.payment_token amount "USD" with
      | .ok true =>
        let new_subscription : Subscription :=
          { id := new_id, user_id := user_id,
            plan_id := purchase_req.plan_id,
            started_at := t1,
            expires_at := t2 + duration_days * 86400,
            is_active := true }
        match create_subscription db new_subscription with
        | .ok db1 => ⟨.success new_subscription, db1, true, true⟩
        | .error _ => ⟨.internalError, db, true, true⟩
      | .ok false => ⟨.paymentFailed, db, true, false⟩
      | .error _ => ⟨.paymentError, db, true, false⟩

/-! Concrete fixtures used to witness the theorems below. -/

def u0 : Uuid := ⟨0, by norm_num⟩
def u1 : Uuid := ⟨1, by norm_num⟩
def u2 : Uuid := ⟨2, by norm_num⟩
def u3 : Uuid := ⟨3, by norm_num⟩

def emptyCache : DecisionCache := []

def contentPremium : Content :=
  { id := u1, title := "t", body := "b", required_plan := "premium", created_at := 0 }

def contentFree : Content :=
  { id := u2, title := "f", body := "g", required_plan := "free", created_at := 0 }

/-- A database state with no faults, the two fixture content rows, no
subscriptions and no behavior history. -/
def db0 : Db :=
  { subscriptions := [], contents := [contentPremium, contentFree],
    behaviors := [], now := 0,
    subQueryFault := false, contentQueryFault := false, subDaysFault := false,
    avgViewFault := false, totalViewsFault := false, contentViewsFault := false,
    recencyFault := false, totalInteractionsFault := false, avgScoreFault := false,
    logFault := false, createSubFault := false }

def dbRecFault : Db := { db0 with recencyFault := true }

def behaviorRow : UserBehavior :=
  { user_id := u0, content_id := u1, view_time_seconds := 10,
    scroll_depth_percent := 0, interaction_score := 1, timestamp := 0 }

def behaviorOther : UserBehavior :=
  { user_id := u3, content_id := u2, view_time_seconds := 5,
    scroll_depth_percent := 0, interaction_score := 1, timestamp := 0 }

/-- Three behavior rows (one for contentPremium) and a fault on the
total-views count query of the popularity feature. -/
def dbPopFault : Db :=
  { db0 with behaviors := [behaviorRow, behaviorOther, behaviorOther],
             totalViewsFault := true }

def modelTrue : PaywallModel := ⟨fun _ => true⟩

def modelFalse : PaywallModel := ⟨fun _ => false⟩

def cfg0 : Config :=
  { database_url := "d", jwt_secret := "j", payment_api_key := "k",
    payment_api_url := "u" }

def reqPremium : PurchaseRequest := { plan_id := "premium", payment_token := "tok" }

def reqBasic : PurchaseRequest := { plan_id := "basic", payment_token := "tok" }

/-- The subscription purchase_subscription builds from clock readings
t1 = 0 and t2 = 1 for the premium plan. -/
def subC9 : Subscription :=
  { id := u1, user_id := u0, plan_id := "premium", started_at := 0,
    expires_at := 1 + ((30 : Int) : ℚ) * 86400, is_active := true }

def subEarly : Subscription :=
  { id := u2, user_id := u0, plan_id := "basic", started_at := 0,
    expires_at := 100, is_active := true }

def subLate : Subscription :=
  { id := u3, user_id := u0, plan_id := "premium", started_at := 50,
    expires_at := 100, is_active := true }

/-- Two currently qualifying subscription rows for the same user, the
earlier-started one stored first. -/
def db8 : Db := { db0 with subscriptions := [subEarly, subLate], now := 10 }

/-- C1: for every (requiredTier, activeTier) pair the plan authorization
check of get_content produces exactly the verdict of the section 4.1
table: required free allows any active tier including none; required
basic allows active basic or premium and denies none; required premium
allows only active premium; an unrecognized required tier denies for
every active tier; and with no active subscription access is granted iff
the required tier is free. -/
theorem c1_plan_check_matches_table (required_plan : String)
    (subscription : Option Subscription) :
    has_access required_plan subscription
      = authorizeSpec required_plan (subscription.map (·.plan_id)) := by
  cases subscription with
  | none =>
    simp only [has_access, authorizeSpec, Option.map_none']
    split
    · rfl
    · rfl
    · rfl
    · rename_i h1 h2 h3
      simp only [beq_eq_false_iff_ne]
      exact h1
  | some sub =>
    simp only [has_access, authorizeSpec, Option.map_some']
    split
    · rfl
    · simp
    · simp
    · rfl

lemma cacheGet_cacheInsert (cache : DecisionCache) (key : String) (v : Verdict) :
    cacheGet (cacheInsert cache key v) key = some v := by
  simp [cacheGet, cacheInsert, List.find?]

lemma get_content_hit (db : Db) (model : PaywallModel) (cache : DecisionCache)
    (user_id content_id : Uuid) (v : Verdict)
    (h : cacheGet cache (cacheKey content_id user_id) = some v) :
    get_content db model cache (some user_id) content_id
      = ⟨.ok v, db, cache, Trace.none⟩ := by
  simp only [get_content, h]

lemma get_content_hit_cache (db : Db) (model : PaywallModel)
    (cache : DecisionCache) (user_id content_id : Uuid) (v : Verdict)
    (h : cacheGet cache (cacheKey content_id user_id) = some v) :
    (get_content db model cache (some user_id) content_id).cache = cache := by
  simp only [get_content, h]

lemma get_content_hit_response (db : Db) (model : PaywallModel)
    (cache : DecisionCache) (user_id content_id : Uuid) (v : Verdict)
    (h : cacheGet cache (cacheKey content_id user_id) = some v) :
    (get_content db model cache (some user_id) content_id).response = .ok v := by
  simp only [get_content, h]

lemma get_content_content_error (db : Db) (model : PaywallModel)
    (cache : DecisionCache) (user_id content_id : Uuid) (e : DbError)
    (hm : cacheGet cache (cacheKey content_id user_id) = none)
    (hc : get_content_by_id db content_id = .error e) :
    (get_content db model cache (some user_id) content_id).response
      = .internalError := by
  simp only [get_content, hm, hc]

lemma get_content_content_missing (db : Db) (model : PaywallModel)
    (cache : DecisionCache) (user_id content_id : Uuid)
    (hm : cacheGet cache (cacheKey content_id user_id) = none)
    (hc : get_content_by_id db content_id = .ok none) :
    (get_content db model cache (some user_id) content_id).response
      = .notFound := by
  simp only [get_content, hm, hc]

lemma get_content_sub_error (db : Db) (model : PaywallModel)
    (cache : DecisionCache) (user_id content_id : Uuid) (content : Content)
    (e : DbError)
    (hm : cacheGet cache (cacheKey content_id user_id) = none)
    (hc : get_content_by_id db content_id = .ok (some content))
    (hs : get_active_subscription db user_id = .error e) :
    (get_content db model cache (some user_id) content_id).response
      = .internalError := by
  simp only [get_content, hm, hc, hs]

lemma get_content_miss_response (db : Db) (model : PaywallModel)
    (cache : DecisionCache) (user_id content_id : Uuid) (content : Content)
    (subscription : Option Subscription)
    (hm : cacheGet cache (cacheKey content_id user_id) = none)
    (hc : get_content_by_id db content_id = .ok (some content))
    (hs : get_active_subscription db user_id = .ok subscription) :
    (get_content db model cache (some user_id) content_id).response
      = .ok (build_response db model user_id content_id content subscription).1 := by
  simp only [get_content, hm, hc, hs]

lemma get_content_miss_cache (db : Db) (model : PaywallModel)
    (cache : DecisionCache) (user_id content_id : Uuid) (content : Content)
    (subscription : Option Subscription)
    (hm : cacheGet cache (cacheKey content_id user_id) = none)
    (hc : get_content_by_id db content_id = .ok (some content))
    (hs : get_active_subscription db user_id = .ok subscription) :
    (get_content db model cache (some user_id) content_id).cache
      = cacheInsert cache (cacheKey content_id user_id)
          (build_response db model user_id content_id content subscription).1 := by
  simp only [get_content, hm, hc, hs]

lemma get_content_miss_trace (db : Db) (model : PaywallModel)
    (cache : DecisionCache) (user_id content_id : Uuid) (content : Content)
    (subscription : Option Subscription)
    (hm : cacheGet cache (cacheKey content_id user_id) = none)
    (hc : get_content_by_id db content_id = .ok (some content))
    (hs : get_active_subscription db user_id = .ok subscription) :
    (get_content db model cache (some user_id) content_id).trace
      = (build_response db model user_id content_id content subscription).2.2 := by
  simp only [get_content, hm, hc, hs]

lemma build_response_denied (db : Db) (model : PaywallModel)
    (user_id content_id : Uuid) (content : Content)
    (subscription : Option Subscription)
    (hdeny : has_access content.required_plan subscription = false) :
    (build_response db model user_id content_id content subscription).1
      = (match extract_features db user_id content_id with
         | .ok features =>
             if model.predict features then Verdict.fallbackEligible content
             else Verdict.upgradeRequired content
         | .error _ => Verdict.upgradeRequired content) := by
  unfold build_response
  rw [if_neg (by simp [hdeny])]
  cases hf : extract_features db user_id content_id <;> simp [hf]

lemma build_response_denied_trace (db : Db) (model : PaywallModel)
    (user_id content_id : Uuid) (content : Content)
    (subscription : Option Subscription)
    (hdeny : has_access content.required_plan subscription = false) :
    (build_response db model user_id content_id content subscription).2.2
      = ⟨1, 1, if (extract_features db user_id content_id).isOk then 1 else 0, 0⟩ := by
  unfold build_response
  rw [if_neg (by simp [hdeny])]

lemma verdict_cached (db : Db) (model : PaywallModel) (cache : DecisionCache)
    (user_id content_id : Uuid) (v : Verdict)
    (h1 : (get_content db model cache (some user_id) content_id).response = .ok v) :
    cacheGet (get_content db model cache (some user_id) content_id).cache
      (cacheKey content_id user_id) = some v := by
  cases hm : cacheGet cache (cacheKey content_id user_id) with
  | some w =>
    rw [get_content_hit_response db model cache user_id content_id w hm] at h1
    injection h1 with h
    rw [get_content_hit_cache db model cache user_id content_id w hm, ← h]
    exact hm
  | none =>
    cases hc : get_content_by_id db content_id with
    | error e =>
      rw [get_content_content_error db model cache user_id content_id e hm hc] at h1
      exact Response.noConfusion h1
    | ok oc =>
      cases oc with
      | none =>
        rw [get_content_content_missing db model cache user_id content_id hm hc] at h1
        exact Response.noConfusion h1
      | some content =>
        cases hs : get_active_subscription db user_id with
        | error e =>
          rw [get_content_sub_error db model cache user_id content_id content e hm hc hs] at h1
          exact Response.noConfusion h1
        | ok subscription =>
          rw [get_content_miss_response db model cache user_id content_id content
            subscription hm hc hs] at h1
          injection h1 with h
          rw [get_content_miss_cache db model cache user_id content_id content
            subscription hm hc hs, ← h]
          exact cacheGet_cacheInsert cache (cacheKey content_id user_id) _

/-- C2: on every evaluation in which the plan authorization check denies
access, the verdict returned by get_content has granted false whatever
the fallback model predicts: a grant suggestion changes only the
advisory message, never the granted flag. -/
theorem c2_model_never_grants (db : Db) (model : PaywallModel)
    (cache : DecisionCache) (user_id content_id : Uuid) (content : Content)
    (subscription : Option Subscription)
    (hm : cacheGet cache (cacheKey content_id user_id) = none)
    (hc : get_content_by_id db content_id = .ok (some content))
    (hs : get_active_subscription db user_id = .ok subscription)
    (hdeny : has_access content.required_plan subscription = false) :
    ∃ v, (get_content db model cache (some user_id) content_id).response = .ok v ∧
      v.granted = false ∧ v.content = content := by
  rw [get_content_miss_response db model cache user_id content_id content
    subscription hm hc hs]
  refine ⟨(build_response db model user_id content_id content subscription).1,
    rfl, ?_, ?_⟩
  · rw [build_response_denied db model user_id content_id content subscription hdeny]
    cases hf : extract_features db user_id content_id with
    | error e => rfl
    | ok features =>
      cases hp : model.predict features <;> simp [hp, Verdict.granted]
  · rw [build_response_denied db model user_id content_id content subscription hdeny]
    cases hf : extract_features db user_id content_id with
    | error e => rfl
    | ok features =>
      cases hp : model.predict features <;> simp [hp, Verdict.content]

theorem c2_witness :
    ∃ v, (get_content db0 modelTrue emptyCache (some u0) u1).response = .ok v ∧
      v.granted = false ∧ v.content = contentPremium :=
  c2_model_never_grants db0 modelTrue emptyCache u0 u1 contentPremium none
    rfl rfl rfl rfl

/-- C3: on every evaluation in which the plan check denies and feature
extraction fails, the verdict is granted false with the upgrade-required
message, and the model is never consulted, so the fallback-eligible
suggestion is never produced on an extraction-failure path. -/
theorem c3_extraction_failure_fail_closed (db : Db) (model : PaywallModel)
    (cache : DecisionCache) (user_id content_id : Uuid) (content : Content)
    (subscription : Option Subscription) (e : DbError)
    (hm : cacheGet cache (cacheKey content_id user_id) = none)
    (hc : get_content_by_id db content_id = .ok (some content))
    (hs : get_active_subscription db user_id = .ok subscription)
    (hdeny : has_access content.required_plan subscription = false)
    (hfail : extract_features db user_id content_id = .error e) :
    (get_content db model cache (some user_id) content_id).response
        = .ok (.upgradeRequired content) ∧
    (get_content db model cache (some user_id) content_id).trace.predictCalls = 0 := by
  constructor
  · rw [get_content_miss_response db model cache user_id content_id content
      subscription hm hc hs,
      build_response_denied db model user_id content_id content subscription hdeny,
      hfail]
  · rw [get_content_miss_trace db model cache user_id content_id content
      subscription hm hc hs,
      build_response_denied_trace db model user_id content_id content
      subscription hdeny, hfail]
    rfl

theorem c3_witness :
    (get_content dbRecFault modelTrue emptyCache (some u0) u1).response
        = .ok (.upgradeRequired contentPremium) ∧
    (get_content dbRecFault modelTrue emptyCache (some u0) u1).trace.predictCalls
        = 0 :=
  c3_extraction_failure_fail_closed dbRecFault modelTrue emptyCache u0 u1
    contentPremium none .sqlx rfl rfl rfl rfl rfl

/-- C4: every execution path of get_content that computes a fresh access
verdict on a cache miss, the allowed branch and both denial branches
included, writes that verdict to the decision cache under the derived
key before the response is returned. -/
theorem c4_every_verdict_cached (db : Db) (model : PaywallModel)
    (cache : DecisionCache) (user_id content_id : Uuid) (v : Verdict)
    (hm : cacheGet cache (cacheKey content_id user_id) = none)
    (hok : (get_content db model cache (some user_id) content_id).response = .ok v) :
    (get_content db model cache (some user_id) content_id).cache
        = cacheInsert cache (cacheKey content_id user_id) v ∧
    cacheGet (get_content db model cache (some user_id) content_id).cache
        (cacheKey content_id user_id) = some v := by
  cases hc : get_content_by_id db content_id with
  | error e =>
    rw [get_content_content_error db model cache user_id content_id e hm hc] at hok
    exact Response.noConfusion hok
  | ok oc =>
    cases oc with
    | none =>
      rw [get_content_content_missing db model cache user_id content_id hm hc] at hok
      exact Response.noConfusion hok
    | some content =>
      cases hs : get_active_subscription db user_id with
      | error e =>
        rw [get_content_sub_error db model cache user_id content_id content e
          hm hc hs] at hok
        exact Response.noConfusion hok
      | ok subscription =>
        rw [get_content_miss_response db model cache user_id content_id content
          subscription hm hc hs] at hok
        injection hok with h
        rw [get_content_miss_cache db model cache user_id content_id content
          subscription hm hc hs, ← h]
        exact ⟨rfl, cacheGet_cacheInsert cache (cacheKey content_id user_id) _⟩

theorem c4_witness :
    (get_content db0 modelTrue emptyCache (some u0) u1).cache
        = cacheInsert emptyCache (cacheKey u1 u0) (.fallbackEligible contentPremium) ∧
    cacheGet (get_content db0 modelTrue emptyCache (some u0) u1).cache
        (cacheKey u1 u0) = some (.fallbackEligible contentPremium) :=
  c4_every_verdict_cached db0 modelTrue emptyCache u0 u1
    (.fallbackEligible contentPremium) rfl rfl

/-- C5: whenever a get_content call produced a verdict, calling it again
with the resulting state and no intervening change returns the identical
verdict payload verbatim as a cache hit, with unchanged database and
cache and zero calls to the plan check, feature extraction, model
inference or behavior logging. -/
theorem c5_second_call_is_pure_hit (db : Db) (model : PaywallModel)
    (cache : DecisionCache) (user_id content_id : Uuid) (v : Verdict)
    (h1 : (get_content db model cache (some user_id) content_id).response = .ok v) :
    get_content (get_content db model cache (some user_id) content_id).db model
        (get_content db model cache (some user_id) content_id).cache
        (some user_id) content_id
      = ⟨.ok v, (get_content db model cache (some user_id) content_id).db,
         (get_content db model cache (some user_id) content_id).cache,
         Trace.none⟩ :=
  get_content_hit _ model _ user_id content_id v
    (verdict_cached db model cache user_id content_id v h1)

theorem c5_witness :
    get_content (get_content db0 modelTrue emptyCache (some u0) u1).db modelTrue
        (get_content db0 modelTrue emptyCache (some u0) u1).cache (some u0) u1
      = ⟨.ok (.fallbackEligible contentPremium),
         (get_content db0 modelTrue emptyCache (some u0) u1).db,
         (get_content db0 modelTrue emptyCache (some u0) u1).cache,
         Trace.none⟩ :=
  c5_second_call_is_pure_hit db0 modelTrue emptyCache u0 u1
    (.fallbackEligible contentPremium) rfl

/-- C6 counterexample: with a data-access fault on the total-views count
query of the popularity feature, extract_features still succeeds (and
the popularity value is computed from the substituted default total of
1 rather than the stored 3 rows), so not every data-access fault is
propagated as an extraction failure. -/
theorem c6_counterexample :
    dbPopFault.totalViewsFault = true ∧
    get_content_popularity_score dbPopFault u1 = .ok 1 ∧
    (extract_features dbPopFault u0 u1).isOk = true := by
  refine ⟨rfl, ?_, rfl⟩
  show Except.ok (((1 : Int) : ℚ) / max ((1 : Int) : ℚ) 1) = Except.ok 1
  exact congrArg Except.ok (by norm_num)

/-- C6 amended: a data-access fault in computing the subscription-tenure,
average-view-time, recency, total-interactions or average-score feature
is propagated by extract_features as an Err result; the popularity
feature alone consumes the Results of its two count queries with
unwrap_or, substituting defaults instead of failing. -/
theorem c6_amended_five_features_propagate (db : Db) (user_id content_id : Uuid)
    (h : db.subDaysFault = true ∨ db.avgViewFault = true ∨ db.recencyFault = true
      ∨ db.totalInteractionsFault = true ∨ db.avgScoreFault = true) :
    (extract_features db user_id content_id).isOk = false := by
  cases h1 : db.subDaysFault <;> cases h2 : db.avgViewFault <;>
    cases h3 : db.recencyFault <;> cases h4 : db.totalInteractionsFault <;>
    cases h5 : db.avgScoreFault <;>
    simp_all [extract_features, get_user_subscription_days,
      get_user_avg_view_time, get_content_popularity_score,
      get_time_since_last_interaction, get_user_total_interactions,
      get_content_avg_interaction_score, Except.isOk, Except.toBool]

theorem c6_amended_witness :
    (extract_features dbRecFault u0 u1).isOk = false :=
  c6_amended_five_features_propagate dbRecFault u0 u1
    (Or.inr (Or.inr (Or.inl rfl)))

lemma find?_decomp {α : Type} (p : α → Bool) :
    ∀ (l : List α) (a : α), l.find? p = some a →
      ∃ l1 l2, l = l1 ++ a :: l2 ∧ (∀ x ∈ l1, p x = false) ∧ p a = true := by
  intro l
  induction l with
  | nil => intro a h; simp [List.find?] at h
  | cons x xs ih =>
    intro a h
    cases hx : p x with
    | true =>
      rw [List.find?_cons_of_pos _ hx] at h
      injection h with h
      subst h
      exact ⟨[], xs, rfl, by simp, hx⟩
    | false =>
      rw [List.find?_cons_of_neg _ (by simp [hx])] at h
      obtain ⟨l1, l2, rfl, hall, hp⟩ := ih a h
      refine ⟨x :: l1, l2, rfl, ?_, hp⟩
      intro y hy
      rcases List.mem_cons.mp hy with rfl | hy
      · exact hx
      · exact hall y hy

/-- C8 counterexample: two subscription rows both qualify (active,
unexpired, same user) and the later-started one is stored second;
get_active_subscription returns the earlier-started row, not the most
recently started one, because its query has no ORDER BY. -/
theorem c8_counterexample :
    get_active_subscription db8 u0 = .ok (some subEarly) ∧
    subLate ∈ db8.subscriptions ∧ subLate.user_id = u0 ∧
    subLate.is_active = true ∧ db8.now < subLate.expires_at ∧
    subEarly.started_at < subLate.started_at := by
  refine ⟨rfl, ?_, rfl, rfl, ?_, ?_⟩
  · show subLate ∈ [subEarly, subLate]
    simp
  · show (10 : ℚ) < 100
    norm_num
  · show (0 : ℚ) < 50
    norm_num

/-- C8 amended: get_active_subscription returns only rows of the user
that are active and unexpired, and when several rows qualify it returns
the first qualifying row in stored order, which need not be the most
recently started. -/
theorem c8_amended_filter_sound (db : Db) (user_id : Uuid) (s : Subscription)
    (h : get_active_subscription db user_id = .ok (some s)) :
    s.user_id = user_id ∧ s.is_active = true ∧ db.now < s.expires_at ∧
    ∃ l1 l2, db.subscriptions = l1 ++ s :: l2 ∧
      ∀ x ∈ l1, ¬(x.user_id = user_id ∧ x.is_active = true ∧ db.now < x.expires_at) := by
  unfold get_active_subscription at h
  by_cases hf : db.subQueryFault
  · rw [if_pos hf] at h
    exact Except.noConfusion h
  · rw [if_neg hf] at h
    injection h with h
    obtain ⟨l1, l2, heq, hall, hp⟩ := find?_decomp _ _ _ h
    simp only [Bool.and_eq_true, beq_iff_eq, decide_eq_true_eq] at hp
    refine ⟨hp.1.1, hp.1.2, hp.2, l1, l2, heq, ?_⟩
    intro x hx hcontra
    have hfalse := hall x hx
    have htrue : (x.user_id == user_id && x.is_active
        && decide (db.now < x.expires_at)) = true := by
      simp [hcontra.1, hcontra.2.1, hcontra.2.2]
    rw [htrue] at hfalse
    exact Bool.noConfusion hfalse

theorem c8_witness :
    subEarly.user_id = u0 ∧ subEarly.is_active = true ∧
    db8.now < subEarly.expires_at ∧
    ∃ l1 l2, db8.subscriptions = l1 ++ subEarly :: l2 ∧
      ∀ x ∈ l1, ¬(x.user_id = u0 ∧ x.is_active = true ∧ db8.now < x.expires_at) :=
  c8_amended_filter_sound db8 u0 subEarly rfl

lemma plan_table_duration (plan_id : String) (amount : ℚ) (d : Int)
    (h : plan_table plan_id = some (amount, d)) : d = 30 := by
  unfold plan_table at h
  split at h
  · injection h with h
    injection h with h1 h2
    exact h2.symm
  · injection h with h
    injection h with h1 h2
    exact h2.symm
  · exact Option.noConfusion h

lemma plan_table_none (plan_id : String)
    (h1 : plan_id ≠ "basic") (h2 : plan_id ≠ "premium") :
    plan_table plan_id = none := by
  unfold plan_table
  split
  · exact absurd rfl h1
  · exact absurd rfl h2
  · rfl

/-- C9 counterexample: the source reads Utc::now() twice, once for
started_at and once as the base of expires_at; with clock readings 0
and 1 the created premium subscription has expires_at one second more
than started_at plus 30 days, so expires_at is not exactly
started_at + 30 days. -/
theorem c9_counterexample :
    (purchase_subscription db0 cfg0 (some u0) reqPremium u1 0 1).response
        = .success subC9 ∧
    subC9.expires_at ≠ subC9.started_at + 30 * 86400 := by
  refine ⟨rfl, ?_⟩
  simp only [subC9]
  push_cast
  norm_num

/-- C9 amended: every successful purchase (necessarily plan basic at
9.99 or premium at 19.99, both 30 days) creates a subscription with
started_at equal to the first clock reading and expires_at equal to the
second clock reading plus exactly 30 days, so the two are exactly 30
days apart whenever the clock does not advance between the two
Utc::now() calls; any other plan id is rejected as a client error
before payment is attempted. -/
theorem c9_amended_expiry (db : Db) (config : Config) (user_id : Uuid)
    (purchase_req : PurchaseRequest) (new_id : Uuid) (t1 t2 : ℚ) :
    (∀ sub, (purchase_subscription db config (some user_id) purchase_req
        new_id t1 t2).response = .success sub →
      sub.started_at = t1 ∧ sub.expires_at = t2 + 30 * 86400) ∧
    (purchase_req.plan_id ≠ "basic" → purchase_req.plan_id ≠ "premium" →
      (purchase_subscription db config (some user_id) purchase_req
          new_id t1 t2).response = .invalidPlan ∧
      (purchase_subscription db config (some user_id) purchase_req
          new_id t1 t2).paymentAttempted = false) := by
  constructor
  · intro sub hsub
    cases hp : plan_table purchase_req.plan_id with
    | none =>
      simp only [purchase_subscription, hp] at hsub
      exact PurchaseResponse.noConfusion hsub
    | some pr =>
      obtain ⟨amount, d⟩ := pr
      have hd : d = 30 := plan_table_duration _ _ _ hp
      subst hd
      simp only [purchase_subscription, hp, process_payment,
        create_subscription] at hsub
      by_cases hcf : db.createSubFault
      · simp only [if_pos hcf] at hsub
        exact PurchaseResponse.noConfusion hsub
      · simp only [if_neg hcf] at hsub
        injection hsub with hsub
        rw [← hsub]
        constructor
        · rfl
        · show t2 + (30 : Int) * 86400 = t2 + 30 * 86400
          norm_num
  · intro h1 h2
    have hp := plan_table_none purchase_req.plan_id h1 h2
    constructor <;> simp only [purchase_subscription, hp]

theorem c9_amended_witness :
    (subC9.started_at = (0 : ℚ) ∧ subC9.expires_at = 1 + 30 * 86400) ∧
    ((purchase_subscription db0 cfg0 (some u0)
        { plan_id := "gold", payment_token := "tok" } u1 0 1).response
      = .invalidPlan ∧
     (purchase_subscription db0 cfg0 (some u0)
        { plan_id := "gold", payment_token := "tok" } u1 0 1).paymentAttempted
      = false) :=
  ⟨(c9_amended_expiry db0 cfg0 u0 reqPremium u1 0 1).1 subC9 rfl,
   (c9_amended_expiry db0 cfg0 u0
      { plan_id := "gold", payment_token := "tok" } u1 0 1).2
     (by decide) (by decide)⟩

/-- C10: process_payment is a stub returning Ok(true) for every input,
so the payment-failure and payment-error branches of
purchase_subscription are unreachable, and every authenticated purchase
with a valid plan id proceeds to subscription creation. -/
theorem c10_payment_stub_branches_unreachable (db : Db) (config : Config)
    (user_id : Uuid) (purchase_req : PurchaseRequest) (new_id : Uuid)
    (t1 t2 : ℚ) (amount : ℚ) (token currency : String)
    (hplan : purchase_req.plan_id = "basic" ∨ purchase_req.plan_id = "premium") :
    process_payment config token amount currency = .ok true ∧
    (purchase_subscription db config (some user_id) purchase_req
        new_id t1 t2).response ≠ .paymentFailed ∧
    (purchase_subscription db config (some user_id) purchase_req
        new_id t1 t2).response ≠ .paymentError ∧
    (purchase_subscription db config (some user_id) purchase_req
        new_id t1 t2).createAttempted = true := by
  refine ⟨rfl, ?_⟩
  have hp : ∃ a, plan_table purchase_req.plan_id = some (a, 30) := by
    rcases hplan with h | h <;>
      exact ⟨_, by rw [show plan_table purchase_req.plan_id
        = plan_table purchase_req.plan_id from rfl, h]; rfl⟩
  obtain ⟨a, hp⟩ := hp
  by_cases hcf : db.createSubFault <;>
    simp_all [purchase_subscription, process_payment, create_subscription]

theorem c10_witness :
    process_payment cfg0 "tok" 19.99 "USD" = .ok true ∧
    (purchase_subscription db0 cfg0 (some u0) reqBasic u1 0 0).response
        ≠ .paymentFailed ∧
    (purchase_subscription db0 cfg0 (some u0) reqBasic u1 0 0).response
        ≠ .paymentError ∧
    (purchase_subscription db0 cfg0 (some u0) reqBasic u1 0 0).createAttempted
        = true :=
  c10_payment_stub_branches_unreachable db0 cfg0 u0 reqBasic u1 0 0 19.99
    "tok" "USD" (Or.inl rfl)

lemma hexDigit_fin_inj : ∀ a b : Fin 16, hexDigit a.val = hexDigit b.val → a = b := by
  decide

lemma toHex_length (w : Nat) : ∀ n, (toHex w n).length = w := by
  induction w with
  | zero => intro n; rfl
  | succ w ih => intro n; simp [toHex, ih]

lemma toHex_add (a b : Nat) : ∀ n, toHex (a + b) n = toHex a (n / 16 ^ b) ++ toHex b n := by
  induction b with
  | zero => intro n; simp [toHex]
  | succ b ih =>
    intro n
    have hab : a + (b + 1) = (a + b) + 1 := by omega
    rw [hab]
    simp only [toHex]
    rw [ih (n / 16), List.append_assoc, Nat.div_div_eq_div_mul, pow_succ,
      Nat.mul_comm 16 (16 ^ b)]

lemma toHex_inj (w : Nat) : ∀ m n, m < 16 ^ w → n < 16 ^ w → toHex w m = toHex w n → m = n := by
  induction w with
  | zero =>
    intro m n hm hn _
    simp [pow_zero] at hm hn
    omega
  | succ w ih =>
    intro m n hm hn h
    simp only [toHex] at h
    obtain ⟨h1, h2⟩ := List.append_inj h (by simp [toHex_length])
    have hd : m % 16 = n % 16 := by
      injection h2 with h2 _
      exact congrArg Fin.val (hexDigit_fin_inj
        ⟨m % 16, Nat.mod_lt _ (by norm_num)⟩
        ⟨n % 16, Nat.mod_lt _ (by norm_num)⟩ h2)
    have hq : m / 16 = n / 16 := by
      apply ih
      · exact (Nat.div_lt_iff_lt_mul (by norm_num)).mpr (by rw [← pow_succ]; exact hm)
      · exact (Nat.div_lt_iff_lt_mul (by norm_num)).mpr (by rw [← pow_succ]; exact hn)
      · exact h1
    omega

lemma toHex32_decomp (n : Nat) :
    toHex 32 n = toHex 8 (n / 16 ^ 24)
      ++ (toHex 4 (n / 16 ^ 20) ++ (toHex 4 (n / 16 ^ 16)
      ++ (toHex 4 (n / 16 ^ 12) ++ toHex 12 n))) := by
  have e1 : toHex 32 n = toHex 8 (n / 16 ^ 24) ++ toHex 24 n := toHex_add 8 24 n
  have e2 : toHex 24 n = toHex 4 (n / 16 ^ 20) ++ toHex 20 n := toHex_add 4 20 n
  have e3 : toHex 20 n = toHex 4 (n / 16 ^ 16) ++ toHex 16 n := toHex_add 4 16 n
  have e4 : toHex 16 n = toHex 4 (n / 16 ^ 12) ++ toHex 12 n := toHex_add 4 12 n
  rw [e1, e2, e3, e4]

lemma uuidStr_data (u : Uuid) : (uuidStr u).data = uuidChars u := rfl

lemma uuidChars_length (u : Uuid) : (uuidChars u).length = 36 := by
  simp [uuidChars, toHex_length]

lemma uuidChars_inj {u v : Uuid} (h : uuidChars u = uuidChars v) : u = v := by
  unfold uuidChars at h
  obtain ⟨h, h5⟩ := List.append_inj' h (by simp [toHex_length])
  injection h5 with _ h5
  obtain ⟨h, h4⟩ := List.append_inj' h (by simp [toHex_length])
  injection h4 with _ h4
  obtain ⟨h, h3⟩ := List.append_inj' h (by simp [toHex_length])
  injection h3 with _ h3
  obtain ⟨h1, h2⟩ := List.append_inj' h (by simp [toHex_length])
  injection h2 with _ h2
  have hpow : (16 : Nat) ^ 32 = 2 ^ 128 := by norm_num
  have key : toHex 32 u.val = toHex 32 v.val := by
    rw [toHex32_decomp, toHex32_decomp, h1, h2, h3, h4, h5]
  have hu : u.val < 16 ^ 32 := by rw [hpow]; exact u.isLt
  have hv : v.val < 16 ^ 32 := by rw [hpow]; exact v.isLt
  exact Fin.ext (toHex_inj 32 u.val v.val hu hv key)

/-- C7: the cache-key derivation is an injective pure function of the
(content id, user id) pair: two derived keys are equal exactly when
both identifiers agree, so distinct pairs never collide and the same
pair always derives the same key. -/
theorem c7_cache_key_injective (ca ua cb ub : Uuid) :
    cacheKey ca ua = cacheKey cb ub ↔ ca = cb ∧ ua = ub := by
  constructor
  · intro h
    have hd := congrArg String.data h
    simp only [cacheKey, String.data_append, uuidStr_data,
      List.append_assoc] at hd
    have hd1 := List.append_cancel_left hd
    obtain ⟨h1, h2⟩ := List.append_inj hd1
      (by rw [uuidChars_length, uuidChars_length])
    have hd2 := List.append_cancel_left h2
    exact ⟨uuidChars_inj h1, uuidChars_inj hd2⟩
  · rintro ⟨rfl, rfl⟩
    rfl

end Paywall
